import Mathlib

/-!
Shallow embedding of the ai_factor repository for specification checking.

Part A embeds the backtest engine `src/backtest.py` (`run_backtest_final_entry`):
price bars per instrument, the per-signal pipeline (cache lookup, horizon map,
threshold gating, entry fixing by time-of-day decision table, ordinal-offset
exit, PnL computation).

Part B embeds the scoring pipeline: `src/ai_scorer.py` (`get_llm_score_with_retry`,
the main run loop), `src/llm_service.py` (`LLMService.get_score_with_retry`),
`src/data_processor.py` (`load_data_from_json_file`, `load_processed_codes`,
`save_failed_tasks`) and `src/stock_scorer.py` (`StockScorer.run`).

Python floats are modelled as rationals, dates as natural day-numbers,
times-of-day as seconds since midnight, and the external collaborator
(the LLM endpoint plus `json.loads` on its reply text) as an oracle stream
of per-call outcomes.
-/

/-! ## Part A: backtest engine (src/backtest.py) -/

/-- One row of the per-instrument daily data: `trade_date` (a day number, the
image of pandas `datetime.date` under any order-embedding), `open` and `close`
prices. The csv columns `open`/`close` are Lean keywords, hence the trailing
underscore. -/
structure PriceBar where
  trade_date : Nat
  open_ : ℚ
  close_ : ℚ
deriving DecidableEq, Repr

/-- One factor signal row of ceshi.csv as `run_backtest_final_entry` reads it:
`pub_date`/`pub_time` are the date and time-of-day (seconds since midnight)
parts of the parsed `pub_time` column. -/
structure Signal where
  id : String
  stock_code : String
  pub_date : Nat
  pub_time : Nat
  time_horizon : String
  sentiment_score : ℚ
  event_driven_score : ℚ
  novelty_score : ℚ
deriving DecidableEq, Repr

/-- HORIZON_MAP of backtest.py: holding period in trading days per horizon;
`.get` on the dict returns `None` for any other key. -/
def HORIZON_MAP : String → Option Nat
  | "短期" => some 5
  | "中期" => some 20
  | "长期" => some 60
  | _ => none

def CONF_THRESHOLD : ℚ := 0.5

def SENT_POSITIVE_THRESHOLD : ℚ := 0.3

def SENT_NEGATIVE_THRESHOLD : ℚ := -0.3

/-- `datetime.time(9, 0, 0)` in seconds since midnight. -/
def TIME_0900 : Nat := 9 * 3600

/-- `datetime.time(15, 0, 0)` in seconds since midnight. -/
def TIME_1500 : Nat := 15 * 3600

inductive TradeType where
  | long : TradeType
  | short : TradeType
deriving DecidableEq, Repr

/-- The signal-gating block of backtest.py: long when sentiment exceeds the
positive threshold and both confidences exceed CONF_THRESHOLD, short when
sentiment is below the negative threshold with the same confidence gates,
otherwise no trade. -/
def signalTradeType (sent event novel : ℚ) : Option TradeType :=
  if sent > SENT_POSITIVE_THRESHOLD ∧ event > CONF_THRESHOLD ∧ novel > CONF_THRESHOLD then
    some TradeType.long
  else if sent < SENT_NEGATIVE_THRESHOLD ∧ event > CONF_THRESHOLD ∧ novel > CONF_THRESHOLD then
    some TradeType.short
  else
    none

/-- Membership of the signal date in the instrument's trading-day set
(`days_set = set(data_reset['trade_date'].dt.date)`). -/
def isTradingDay (bars : List PriceBar) (d : Nat) : Bool :=
  bars.any (fun b => b.trade_date == d)

/-- `df[mask].iloc[0]` together with `.name` after `reset_index`: the first
list element satisfying the predicate, paired with its position in the full
per-instrument sequence. -/
def findFirstWithIdx (p : PriceBar → Bool) : List PriceBar → Option (Nat × PriceBar)
  | [] => none
  | b :: rest =>
    if p b then some (0, b)
    else
      match findFirstWithIdx p rest with
      | none => none
      | some (i, b') => some (i + 1, b')

/-- The entry fixing: position of the entry bar in the instrument's sequence
(`entry_index = entry_row.name`), the bar, and the chosen price field. -/
structure EntryFix where
  idx : Nat
  bar : PriceBar
  price : ℚ
deriving DecidableEq, Repr

/-- The entry block of `run_backtest_final_entry` (its rules 1, 2a, 2b, 3):
before 09:00 the first bar dated on or after the signal date at its open;
in [09:00, 15:00] on a trading day that first bar at its close; in
[09:00, 15:00] on a non-trading day, and strictly after 15:00, the first bar
dated strictly after the signal date at its open; `none` when no row matches
(`entry_candidates.empty`). -/
def resolveEntry (bars : List PriceBar) (signal_date signal_time : Nat) : Option EntryFix :=
  if signal_time < TIME_0900 then
    (findFirstWithIdx (fun b => decide (signal_date ≤ b.trade_date)) bars).map
      (fun ib => ⟨ib.1, ib.2, ib.2.open_⟩)
  else if signal_time ≤ TIME_1500 then
    if isTradingDay bars signal_date then
      (findFirstWithIdx (fun b => decide (signal_date ≤ b.trade_date)) bars).map
        (fun ib => ⟨ib.1, ib.2, ib.2.close_⟩)
    else
      (findFirstWithIdx (fun b => decide (signal_date < b.trade_date)) bars).map
        (fun ib => ⟨ib.1, ib.2, ib.2.open_⟩)
  else
    (findFirstWithIdx (fun b => decide (signal_date < b.trade_date)) bars).map
      (fun ib => ⟨ib.1, ib.2, ib.2.open_⟩)

/-- One row of the results list of backtest.py. -/
structure Trade where
  signal_id : String
  stock_code : String
  time_horizon : String
  holding_period_days : Nat
  trade_type : TradeType
  entry_date : Nat
  entry_price : ℚ
  exit_date : Nat
  exit_price : ℚ
  pct_return : ℚ
  is_win : Bool
deriving DecidableEq, Repr

/-- The PnL block: `(exit − entry)/entry` for long, `(entry − exit)/entry`
for short. -/
def pctReturn (tt : TradeType) (entry_price exit_price : ℚ) : ℚ :=
  match tt with
  | TradeType.long => (exit_price - entry_price) / entry_price
  | TradeType.short => (entry_price - exit_price) / entry_price

/-- The body of the per-signal loop of `run_backtest_final_entry`, from the
`stock_data_cache` membership test to the appended result row: `none` is a
`continue` (no trade recorded for the signal). The cache is the association
of bare stock codes to their date-sorted bar sequences. -/
def processSignal (cache : List (String × List PriceBar)) (s : Signal) : Option Trade :=
  match cache.lookup s.stock_code with
  | none => none
  | some bars =>
    match HORIZON_MAP s.time_horizon with
    | none => none
    | some holding_period =>
      match signalTradeType s.sentiment_score s.event_driven_score s.novelty_score with
      | none => none
      | some tt =>
        match resolveEntry bars s.pub_date s.pub_time with
        | none => none
        | some ef =>
          match bars.get? (ef.idx + holding_period) with
          | none => none
          | some exit_row =>
            some
              { signal_id := s.id
                stock_code := s.stock_code
                time_horizon := s.time_horizon
                holding_period_days := holding_period
                trade_type := tt
                entry_date := ef.bar.trade_date
                entry_price := ef.price
                exit_date := exit_row.trade_date
                exit_price := exit_row.close_
                pct_return := pctReturn tt ef.price exit_row.close_
                is_win := decide (pctReturn tt ef.price exit_row.close_ > 0) }

/-- b is the first bar of the sequence satisfying p, and sits at position i. -/
def firstSat (p : PriceBar → Bool) (bars : List PriceBar) (i : Nat) (b : PriceBar) : Prop :=
  bars.get? i = some b ∧ p b = true ∧
    ∀ j b', j < i → bars.get? j = some b' → p b' = false

/-! ## Part B: scoring pipeline -/

/-- The value `json.loads` yields from a collaborator reply or an input file. -/
inductive Json where
  | jnum : ℚ → Json
  | jstr : String → Json
  | jbool : Bool → Json
  | jnull : Json
  | jarr : List Json → Json
  | jobj : List (String × Json) → Json
deriving Repr

/-- Models the Python truth test `not s.strip()`: `.strip()` removes leading
and trailing whitespace, so the stripped string is falsy exactly when every
character of s is whitespace. -/
def isBlank (s : String) : Bool := s.data.all Char.isWhitespace

/-- `needle in hay` for Python strings: substring containment. -/
def containsSubstr (needle hay : String) : Bool :=
  (List.range (hay.length + 1)).any
    (fun i => ((hay.drop i).take needle.length) == needle)

/-- Python `str.lower()`: each character lowercased. -/
def pyLower (s : String) : String := String.mk (s.data.map Char.toLower)

/-- `"timeout" in str(e).lower()`, the transient-error test of ai_scorer.py. -/
def isTimeoutMsg (msg : String) : Bool := containsSubstr "timeout" (pyLower msg)

/-- One scorable record of an input JSON file, with the fields the scorer
functions read. -/
structure TaskItem where
  title : String
  content : String
  stock_code : String
deriving DecidableEq, Repr

/-- The tagged per-task result both scorer variants return: `success` with the
parsed data, `failed` with an error string and (for parse failures) the raw
reply text, or `skipped` with a reason. -/
inductive ScoreResult where
  | success : Json → ScoreResult
  | failed : String → Option String → ScoreResult
  | skipped : String → ScoreResult
deriving Repr

/-- Result of one call of a scorer function, together with how many
collaborator calls it made and how many seconds it slept in retries. -/
structure CallStats where
  result : ScoreResult
  calls : Nat
  sleepSeconds : Nat
deriving Repr

/-- MAX_RETRIES = 3 in both ai_scorer.py and config.py. -/
def MAX_RETRIES : Nat := 3

/-- RETRY_SLEEP_TIME = 15 in both ai_scorer.py and config.py. -/
def RETRY_SLEEP_TIME : Nat := 15

/-- What one `client.chat.completions.create` call in ai_scorer.py can do:
raise `RateLimitError`, raise some other exception with a message, or return
a reply; a reply is its raw text paired with what `json.loads` yields on it
(`none` models `json.JSONDecodeError`). -/
inductive ApiOutcome where
  | rateLimit : ApiOutcome
  | exn : String → ApiOutcome
  | response : String → Option Json → ApiOutcome

/-- An outcome is in ai_scorer.py's transient class (slept on and retried)
when it is a rate limit or an exception whose text mentions a timeout. -/
def isTransient : ApiOutcome → Bool
  | ApiOutcome.rateLimit => true
  | ApiOutcome.exn msg => isTimeoutMsg msg
  | ApiOutcome.response _ _ => false

/-- The `for attempt in range(MAX_RETRIES)` loop of
`get_llm_score_with_retry` (ai_scorer.py): a reply is parsed — success on
valid JSON, otherwise an immediate `failed "JSONDecodeError"` carrying the
raw text; `RateLimitError` and timeout-looking exceptions sleep
RETRY_SLEEP_TIME and retry; any other exception fails immediately with its
message; an exhausted loop fails with "Max retries exceeded". `outcomes k`
is what the (k+1)-th collaborator call does; `calls`/`slept` accumulate. -/
def ai_attempts (outcomes : Nat → ApiOutcome) : Nat → Nat → Nat → CallStats
  | 0, calls, slept => ⟨ScoreResult.failed "Max retries exceeded" none, calls, slept⟩
  | fuel + 1, calls, slept =>
    match outcomes calls with
    | ApiOutcome.response raw parsed =>
      match parsed with
      | some j => ⟨ScoreResult.success j, calls + 1, slept⟩
      | none => ⟨ScoreResult.failed "JSONDecodeError" (some raw), calls + 1, slept⟩
    | ApiOutcome.rateLimit =>
      ai_attempts outcomes fuel (calls + 1) (slept + RETRY_SLEEP_TIME)
    | ApiOutcome.exn msg =>
      if isTimeoutMsg msg then ai_attempts outcomes fuel (calls + 1) (slept + RETRY_SLEEP_TIME)
      else ⟨ScoreResult.failed msg none, calls + 1, slept⟩

/-- `get_llm_score_with_retry` of ai_scorer.py: the empty-content guard on
`title + " " + content`, then the retry loop. -/
def get_llm_score_with_retry (task : TaskItem) (outcomes : Nat → ApiOutcome) : CallStats :=
  if isBlank (task.title ++ " " ++ task.content) then
    ⟨ScoreResult.skipped "Empty content", 0, 0⟩
  else
    ai_attempts outcomes MAX_RETRIES 0 0

/-- The five factor field names `LLMService.get_score_with_retry` checks for. -/
def FACTOR_FIELDS : List String :=
  ["Fundamental_Positive", "Impact_Cycle_Length", "Timeliness_Weight",
   "Information_Certainty", "Information_Relevance"]

/-- Python membership `k in v` for a value `json.loads` can yield: key lookup
on a dict, element equality on a list (only a string element can equal a
string), substring on a string. On a number or bool or None it raises
`TypeError`, which the surrounding `except Exception` turns into the same
`failed` outcome as a false test, so `false` is returned for those. -/
def pyContains (j : Json) (k : String) : Bool :=
  match j with
  | Json.jobj kvs => kvs.any (fun kv => kv.1 == k)
  | Json.jarr xs =>
    xs.any (fun x => match x with | Json.jstr t => t == k | _ => false)
  | Json.jstr s => containsSubstr k s
  | _ => false

/-- What one `self.llm.invoke` call in llm_service.py can do: raise an
exception (with its message) or return a reply; the reply carries its raw
text, what `json.loads` yields on the stripped text, and what it yields on
the unstripped text (the fallback re-parse). -/
inductive TongyiOutcome where
  | exn : String → TongyiOutcome
  | response : String → Option Json → Option Json → TongyiOutcome

/-- The `for attempt in range(Config.MAX_RETRIES)` loop of
`LLMService.get_score_with_retry` (llm_service.py): a reply whose stripped
text parses is a success with the parsed data as returned; on a first parse
failure a fallback re-parse of the unstripped text is accepted when all five
factor fields are present, and otherwise the task fails immediately as
"ParsingError" with the raw reply attached; every `llm.invoke` exception —
of any kind — sleeps RETRY_SLEEP_TIME and retries; an exhausted loop fails
with "Max retries exceeded". -/
def LLMService_attempts (outcomes : Nat → TongyiOutcome) : Nat → Nat → Nat → CallStats
  | 0, calls, slept => ⟨ScoreResult.failed "Max retries exceeded" none, calls, slept⟩
  | fuel + 1, calls, slept =>
    match outcomes calls with
    | TongyiOutcome.exn _ =>
      LLMService_attempts outcomes fuel (calls + 1) (slept + RETRY_SLEEP_TIME)
    | TongyiOutcome.response raw parsedStripped parsedPlain =>
      match parsedStripped with
      | some j => ⟨ScoreResult.success j, calls + 1, slept⟩
      | none =>
        match parsedPlain with
        | some j =>
          if FACTOR_FIELDS.all (fun k => pyContains j k) then
            ⟨ScoreResult.success j, calls + 1, slept⟩
          else ⟨ScoreResult.failed "ParsingError" (some raw), calls + 1, slept⟩
        | none => ⟨ScoreResult.failed "ParsingError" (some raw), calls + 1, slept⟩

/-- `LLMService.get_score_with_retry` of llm_service.py: the empty-content
guard on the `content` field alone, then the retry loop. -/
def LLMService_get_score_with_retry (task : TaskItem) (outcomes : Nat → TongyiOutcome) :
    CallStats :=
  if isBlank task.content then ⟨ScoreResult.skipped "Empty content", 0, 0⟩
  else LLMService_attempts outcomes MAX_RETRIES 0 0

/-- Spec-side predicate for C1 (from spec.md §3 FactorScore and §8): the
success data is a JSON object holding exactly the five factor fields, each a
number in [0.0, 1.0]. -/
def isValidFactorData (j : Json) : Bool :=
  match j with
  | Json.jobj kvs =>
    FACTOR_FIELDS.all (fun k => kvs.any (fun kv => kv.1 == k)) &&
    kvs.all (fun kv =>
      FACTOR_FIELDS.contains kv.1 &&
      (match kv.2 with
       | Json.jnum q => decide ((0 : ℚ) ≤ q) && decide (q ≤ 1)
       | _ => false))
  | _ => false

/-- One persisted row of the results store; only the `stock_code` column
drives resumption. -/
structure ScoredRow where
  id : String
  stock_code : String
deriving DecidableEq, Repr

/-- `DataProcessor.load_processed_codes` / the resumption preamble of
ai_scorer.main: the set of distinct `stock_code` values of the results CSV. -/
def load_processed_codes (store : List ScoredRow) : List String :=
  (store.map (fun r => r.stock_code)).dedup

/-- The two filter loops of `StockScorer.run` combined on the target files'
codes: keep a target whose code is not among the processed codes. -/
def files_to_process (processed : List String) (targets : List String) : List String :=
  targets.filter (fun code => decide (code ∉ processed))

/-- The file loop of `StockScorer.run` at resumption granularity:
`fileSuccesses` gives the successful rows scoring a file yields (the
collaborator outcome oracle); each processed file's rows are appended to the
store; the second component counts the files processed this run. -/
def runPipeline (fileSuccesses : String → List ScoredRow) (store : List ScoredRow)
    (targets : List String) : List ScoredRow × Nat :=
  let processed := load_processed_codes store
  let files := files_to_process processed targets
  (files.foldl (fun acc f => acc ++ fileSuccesses f) store, files.length)

/-- One entry of the failure log. -/
structure FailedTask where
  id : String
  error_details : String
deriving DecidableEq, Repr

/-- `DataProcessor.save_failed_tasks` as a transformation on the failure-log
file's contents (`none` = the file does not exist): an empty failure list
returns before touching the file; otherwise the file is rewritten ("w" mode)
with exactly the given list. -/
def save_failed_tasks (failed_tasks : List FailedTask)
    (fileContents : Option (List FailedTask)) : Option (List FailedTask) :=
  if failed_tasks.isEmpty then fileContents else some failed_tasks

/-- Python `data[10]` for a `json.loads` value: element 10 of a list
(IndexError when it is too short), the 1-character string at position 10 of a
string, and a KeyError/TypeError on every other value — each error is caught
by `except Exception` in the caller, which returns `None`. -/
def pyIndexTen (j : Json) : Option Json :=
  match j with
  | Json.jarr xs => xs.get? 10
  | Json.jstr s => (s.data.get? 10).map (fun ch => Json.jstr (String.mk [ch]))
  | _ => none

/-- Python `len(v)` for a `json.loads` value: the length of a list, object or
string; a number, boolean or None has no `len()` and raises `TypeError`. -/
def pyLen (j : Json) : Option Nat :=
  match j with
  | Json.jarr xs => some xs.length
  | Json.jobj kvs => some kvs.length
  | Json.jstr s => some s.length
  | _ => none

/-- `DataProcessor.load_data_from_json_file` (data_processor.py): reading the
file (`none` = FileNotFoundError), the emptiness guard, `json.loads`
(`parsed`, `none` = JSONDecodeError), then `[10]` on the parsed document.
Before returning, still inside the `try`, the logging line evaluates
`len(data)` on the indexed element, so an element without `len()` (null, a
number, a boolean) raises `TypeError` there; every raised error is caught
and `None` returned. -/
def load_data_from_json_file (readResult : Option String) (parsed : Option Json) :
    Option Json :=
  match readResult with
  | none => none
  | some raw =>
    if isBlank raw then none
    else
      match parsed with
      | none => none
      | some data =>
        match pyIndexTen data with
        | none => none
        | some elem =>
          match pyLen elem with
          | none => none
          | some _ => some elem

/-- What one row of the entry decision table asserts of `resolveEntry`'s value:
when a fixing is produced its bar is the first one satisfying p (at its
recorded ordinal) and its price is the field f of that bar; when no fixing is
produced, no bar satisfies p. -/
def entryBranchSpec (bars : List PriceBar) (d t : Nat) (p : PriceBar → Bool)
    (f : PriceBar → ℚ) : Prop :=
  (∀ fix : EntryFix, resolveEntry bars d t = some fix →
    firstSat p bars fix.idx fix.bar ∧ fix.price = f fix.bar)
  ∧ (resolveEntry bars d t = none → ∀ b ∈ bars, p b = false)

/-! ## Concrete data used by witnesses and counterexamples -/

def W3_bar0 : PriceBar := ⟨10, 1, 2⟩

def W3_bar1 : PriceBar := ⟨12, 3, 4⟩

def W3_bars : List PriceBar := [W3_bar0, W3_bar1]

def W4_bars : List PriceBar :=
  [⟨1, 1, 101⟩, ⟨2, 2, 102⟩, ⟨3, 3, 103⟩, ⟨4, 4, 104⟩, ⟨5, 5, 105⟩, ⟨6, 6, 106⟩]

def W4_cache : List (String × List PriceBar) := [("000001", W4_bars)]

def W4_signal : Signal := ⟨"sig1", "000001", 1, 28800, "短期", 1, 1, 1⟩

def W10_signal : Signal := ⟨"sig2", "000001", 1, 28800, "每周", 1, 1, 1⟩

/-- The trade `processSignal W4_cache W4_signal` produces: entry at the first
bar's open (pre-09:00 rule), exit five bars later at that bar's close. -/
def W7_trade : Trade :=
  { signal_id := "sig1"
    stock_code := "000001"
    time_horizon := "短期"
    holding_period_days := 5
    trade_type := TradeType.long
    entry_date := 1
    entry_price := 1
    exit_date := 6
    exit_price := 106
    pct_return := pctReturn TradeType.long 1 106
    is_win := decide (pctReturn TradeType.long 1 106 > 0) }

def C1_badJson : Json := Json.jobj [("Fundamental_Positive", Json.jnum 5)]

/-- A collaborator reply text that parses as a JSON object which misses four
of the five factor fields and carries an out-of-range value. -/
def C1_rawReply : String := "\x7b\"Fundamental_Positive\": 5.0\x7d"

def C1_task : TaskItem := ⟨"title", "some news", "000001"⟩

def C1_outcomes : Nat → TongyiOutcome :=
  fun _ => TongyiOutcome.response C1_rawReply (some C1_badJson) (some C1_badJson)

def C2_task : TaskItem := ⟨"t", "news", "000001"⟩

/-- Every collaborator call raises a non-transient exception (its message
does not mention a timeout and it is not a rate limit). -/
def C2_fatalOutcomes : Nat → TongyiOutcome := fun _ => TongyiOutcome.exn "invalid api key"

/-- A scoring oracle under which no task of any file succeeds. -/
def W5_noSuccess : String → List ScoredRow := fun _ => []

/-- A scoring oracle under which every file yields one successful row bearing
the file's own stock code. -/
def W5_fs : String → List ScoredRow := fun f => [⟨"r1", f⟩]

def W8_old : FailedTask := ⟨"42", "old failure from a previous run"⟩

def W8_new : FailedTask := ⟨"7", "rate limited"⟩

def W9_raw : String := "[0,1,2,3,4,5,6,7,8,9,null,11]"

/-- A parsed input array whose element at index 10 is `null`: indexing
succeeds but the logging line's `len(data)` raises `TypeError`. -/
def W9_eleven : List Json :=
  [Json.jnum 0, Json.jnum 1, Json.jnum 2, Json.jnum 3, Json.jnum 4, Json.jnum 5,
   Json.jnum 6, Json.jnum 7, Json.jnum 8, Json.jnum 9, Json.jnull, Json.jnum 11]

def W9_goodRaw : String := "[0,1,2,3,4,5,6,7,8,9,[\"ok\"],11]"

/-- A parsed input array whose element at index 10 is itself a list (the
shape the caller expects), so `len(data)` succeeds and it is returned. -/
def W9_good : List Json :=
  [Json.jnum 0, Json.jnum 1, Json.jnum 2, Json.jnum 3, Json.jnum 4, Json.jnum 5,
   Json.jnum 6, Json.jnum 7, Json.jnum 8, Json.jnum 9, Json.jarr [Json.jstr "ok"],
   Json.jnum 11]

/-! ## Helper lemmas -/

theorem findFirstWithIdx_eq_none (p : PriceBar → Bool) :
    ∀ bars : List PriceBar, findFirstWithIdx p bars = none → ∀ b ∈ bars, p b = false := by
  intro bars
  induction bars with
  | nil => intro _ b hb; cases hb
  | cons hd rest ih =>
    intro h b hb
    rw [findFirstWithIdx] at h
    by_cases hp : p hd
    · rw [if_pos hp] at h; cases h
    · rw [if_neg hp] at h
      rcases List.mem_cons.mp hb with rfl | hb'
      · exact Bool.eq_false_iff.mpr hp
      · cases hrest : findFirstWithIdx p rest with
        | none => exact ih hrest b hb'
        | some ib => rw [hrest] at h; cases h

theorem findFirstWithIdx_eq_some (p : PriceBar → Bool) :
    ∀ (bars : List PriceBar) (ib : Nat × PriceBar),
      findFirstWithIdx p bars = some ib → firstSat p bars ib.1 ib.2 := by
  intro bars
  induction bars with
  | nil => intro ib h; cases h
  | cons hd rest ih =>
    intro ib h
    rw [findFirstWithIdx] at h
    by_cases hp : p hd
    · rw [if_pos hp] at h
      injection h with h'
      subst h'
      exact ⟨rfl, hp, fun j b' hj _ => absurd hj (Nat.not_lt_zero j)⟩
    · rw [if_neg hp] at h
      cases hrest : findFirstWithIdx p rest with
      | none => rw [hrest] at h; cases h
      | some ib' =>
        rw [hrest] at h
        obtain ⟨i', b''⟩ := ib'
        injection h with h'
        subst h'
        obtain ⟨hget, hpb, hbefore⟩ := ih (i', b'') hrest
        refine ⟨hget, hpb, ?_⟩
        intro j b' hj hgj
        cases j with
        | zero =>
          injection hgj with h''
          subst h''
          exact Bool.eq_false_iff.mpr hp
        | succ j' =>
          exact hbefore j' b' (Nat.lt_of_succ_lt_succ hj) hgj

theorem entryBranchSpec_of_resolve (bars : List PriceBar) (d t : Nat) (p : PriceBar → Bool)
    (f : PriceBar → ℚ)
    (h : resolveEntry bars d t =
      (findFirstWithIdx p bars).map (fun ib => ⟨ib.1, ib.2, f ib.2⟩)) :
    entryBranchSpec bars d t p f := by
  constructor
  · intro fix hfix
    rw [h] at hfix
    cases hff : findFirstWithIdx p bars with
    | none => rw [hff] at hfix; cases hfix
    | some ib =>
      rw [hff, Option.map_some'] at hfix
      injection hfix with h'
      subst h'
      exact ⟨findFirstWithIdx_eq_some p bars ib hff, rfl⟩
  · intro hnone
    rw [h] at hnone
    exact findFirstWithIdx_eq_none p bars (Option.map_eq_none'.mp hnone)

/-- C3: the entry fixing follows the decision table of
`run_backtest_final_entry`: a publish time strictly before 09:00 selects the
first bar dated on or after the publish date at its open; a publish time in
[09:00, 15:00], inclusive at both ends, on a trading day selects that same
first bar at its close; in [09:00, 15:00] on a non-trading day, and strictly
after 15:00, the first bar dated strictly after the publish date at its open;
and when no qualifying bar exists the signal produces no Trade. -/
theorem C3_entry_decision_table (bars : List PriceBar) (d t : Nat) :
    (t < TIME_0900 →
      entryBranchSpec bars d t (fun b => decide (d ≤ b.trade_date)) (fun b => b.open_))
    ∧ (TIME_0900 ≤ t → t ≤ TIME_1500 → isTradingDay bars d = true →
      entryBranchSpec bars d t (fun b => decide (d ≤ b.trade_date)) (fun b => b.close_))
    ∧ (TIME_0900 ≤ t → t ≤ TIME_1500 → isTradingDay bars d = false →
      entryBranchSpec bars d t (fun b => decide (d < b.trade_date)) (fun b => b.open_))
    ∧ (TIME_1500 < t →
      entryBranchSpec bars d t (fun b => decide (d < b.trade_date)) (fun b => b.open_))
    ∧ (∀ (cache : List (String × List PriceBar)) (s : Signal),
        cache.lookup s.stock_code = some bars → s.pub_date = d → s.pub_time = t →
        resolveEntry bars d t = none → processSignal cache s = none) := by
  refine ⟨?_, ?_, ?_, ?_, ?_⟩
  · intro ht
    apply entryBranchSpec_of_resolve
    unfold resolveEntry
    rw [if_pos ht]
  · intro ht1 ht2 htd
    apply entryBranchSpec_of_resolve
    unfold resolveEntry
    rw [if_neg (not_lt.mpr ht1), if_pos ht2, htd, if_pos rfl]
  · intro ht1 ht2 htd
    apply entryBranchSpec_of_resolve
    unfold resolveEntry
    rw [if_neg (not_lt.mpr ht1), if_pos ht2, htd, if_neg Bool.false_ne_true]
  · intro ht
    apply entryBranchSpec_of_resolve
    unfold resolveEntry
    rw [if_neg (not_lt.mpr (le_of_lt (lt_of_le_of_lt (by decide : TIME_0900 ≤ TIME_1500) ht))),
      if_neg (not_le.mpr ht)]
  · intro cache s hlk hd ht hnone
    subst hd
    subst ht
    simp only [processSignal, hlk]
    cases HORIZON_MAP s.time_horizon with
    | none => rfl
    | some hp =>
      cases signalTradeType s.sentiment_score s.event_driven_score s.novelty_score with
      | none => rfl
      | some tt => rw [hnone]

theorem processSignal_eq_some (cache : List (String × List PriceBar)) (s : Signal)
    (bars : List PriceBar) (hp : Nat) (tt : TradeType) (ef : EntryFix) (exit_row : PriceBar)
    (hb : cache.lookup s.stock_code = some bars)
    (hh : HORIZON_MAP s.time_horizon = some hp)
    (hg : signalTradeType s.sentiment_score s.event_driven_score s.novelty_score = some tt)
    (he : resolveEntry bars s.pub_date s.pub_time = some ef)
    (hx : bars.get? (ef.idx + hp) = some exit_row) :
    processSignal cache s = some
      { signal_id := s.id
        stock_code := s.stock_code
        time_horizon := s.time_horizon
        holding_period_days := hp
        trade_type := tt
        entry_date := ef.bar.trade_date
        entry_price := ef.price
        exit_date := exit_row.trade_date
        exit_price := exit_row.close_
        pct_return := pctReturn tt ef.price exit_row.close_
        is_win := decide (pctReturn tt ef.price exit_row.close_ > 0) } := by
  simp only [processSignal, hb, hh, hg, he, hx]

theorem processSignal_inv (cache : List (String × List PriceBar)) (s : Signal) (tr : Trade)
    (hps : processSignal cache s = some tr) :
    tr.pct_return = pctReturn tr.trade_type tr.entry_price tr.exit_price
    ∧ tr.is_win = decide (tr.pct_return > 0) := by
  unfold processSignal at hps
  split at hps
  · cases hps
  · split at hps
    · cases hps
    · split at hps
      · cases hps
      · split at hps
        · cases hps
        · split at hps
          · cases hps
          · injection hps with h'
            subst h'
            exact ⟨rfl, rfl⟩

/-- C4: when the entry is fixed at ordinal `ef.idx` and the holding period is
`hp`, the exit bar is the one at ordinal `ef.idx + hp` of the same
instrument's sequence and the exit price is that bar's close; when
`ef.idx + hp` is not less than the sequence length, no Trade is emitted
(a silent `continue`, not an error). -/
theorem C4_exit_resolution (cache : List (String × List PriceBar)) (s : Signal)
    (bars : List PriceBar) (hp : Nat) (tt : TradeType) (ef : EntryFix)
    (hb : cache.lookup s.stock_code = some bars)
    (hh : HORIZON_MAP s.time_horizon = some hp)
    (hg : signalTradeType s.sentiment_score s.event_driven_score s.novelty_score = some tt)
    (he : resolveEntry bars s.pub_date s.pub_time = some ef) :
    (∀ exit_row : PriceBar, bars.get? (ef.idx + hp) = some exit_row →
      ∃ tr : Trade, processSignal cache s = some tr ∧
        tr.exit_price = exit_row.close_ ∧ tr.exit_date = exit_row.trade_date ∧
        tr.entry_price = ef.price ∧ tr.holding_period_days = hp)
    ∧ (bars.length ≤ ef.idx + hp → processSignal cache s = none) := by
  constructor
  · intro exit_row hx
    exact ⟨_, processSignal_eq_some cache s bars hp tt ef exit_row hb hh hg he hx,
      rfl, rfl, rfl, rfl⟩
  · intro hlen
    have hx : bars.get? (ef.idx + hp) = none := List.get?_eq_none.mpr hlen
    simp only [processSignal, hb, hh, hg, he, hx]

/-- C10: a signal whose stock code has no price bars in the cache, or whose
`time_horizon` is not one of the three HORIZON_MAP keys, yields no Trade and
no error: `processSignal` returns `none` before any entry resolution. -/
theorem C10_silent_drop (cache : List (String × List PriceBar)) (s : Signal)
    (h : cache.lookup s.stock_code = none ∨ HORIZON_MAP s.time_horizon = none) :
    processSignal cache s = none := by
  rcases h with h | h
  · simp only [processSignal, h]
  · simp only [processSignal]
    cases hlk : cache.lookup s.stock_code with
    | none => rfl
    | some bars => rw [h]

theorem signalTradeType_one_long : signalTradeType 1 1 1 = some TradeType.long := by
  rw [signalTradeType, if_pos]
  exact ⟨by norm_num [SENT_POSITIVE_THRESHOLD], by norm_num [CONF_THRESHOLD],
    by norm_num [CONF_THRESHOLD]⟩

/-- C7: every emitted Trade's pct_return is `(exit − entry)/entry` for a long
trade and `(entry − exit)/entry` for a short trade, its is_win holds exactly
when pct_return is positive, and at entry 100 / exit 110 the long return is
0.10 (a win) while the short return is −0.10 (not a win). -/
theorem C7_pnl_rule :
    (∀ (cache : List (String × List PriceBar)) (s : Signal) (tr : Trade),
      processSignal cache s = some tr →
      (tr.trade_type = TradeType.long →
        tr.pct_return = (tr.exit_price - tr.entry_price) / tr.entry_price)
      ∧ (tr.trade_type = TradeType.short →
        tr.pct_return = (tr.entry_price - tr.exit_price) / tr.entry_price)
      ∧ (tr.is_win = true ↔ tr.pct_return > 0))
    ∧ pctReturn TradeType.long 100 110 = 0.10
    ∧ decide (pctReturn TradeType.long 100 110 > 0) = true
    ∧ pctReturn TradeType.short 100 110 = -0.10
    ∧ decide (pctReturn TradeType.short 100 110 > 0) = false := by
  refine ⟨?_, ?_, ?_, ?_, ?_⟩
  · intro cache s tr hps
    obtain ⟨h1, h2⟩ := processSignal_inv cache s tr hps
    refine ⟨?_, ?_, ?_⟩
    · intro hl; rw [h1, hl]; rfl
    · intro hs; rw [h1, hs]; rfl
    · rw [h2]; exact decide_eq_true_iff
  · norm_num [pctReturn]
  · rw [decide_eq_true_eq]; norm_num [pctReturn]
  · norm_num [pctReturn]
  · rw [decide_eq_false_iff_not]; norm_num [pctReturn]

theorem C7_pnl_rule_witness :
    W7_trade.is_win = true ↔ W7_trade.pct_return > 0 :=
  (C7_pnl_rule.1 W4_cache W4_signal W7_trade
    (processSignal_eq_some W4_cache W4_signal W4_bars 5 TradeType.long
      ⟨0, ⟨1, 1, 101⟩, 1⟩ ⟨6, 6, 106⟩ rfl rfl signalTradeType_one_long rfl rfl)).2.2

theorem C3_entry_decision_table_witness :
    (firstSat (fun b => decide (10 ≤ b.trade_date)) W3_bars 0 W3_bar0
      ∧ (2 : ℚ) = W3_bar0.close_)
    ∧ (firstSat (fun b => decide (10 < b.trade_date)) W3_bars 1 W3_bar1
      ∧ (3 : ℚ) = W3_bar1.open_) := by
  constructor
  · exact ((C3_entry_decision_table W3_bars 10 32400).2.1 (by decide) (by decide)
      (by decide)).1 ⟨0, W3_bar0, 2⟩ rfl
  · exact ((C3_entry_decision_table W3_bars 10 57600).2.2.2.1 (by decide)).1
      ⟨1, W3_bar1, 3⟩ rfl

theorem C4_exit_resolution_witness :
    ∃ tr : Trade, processSignal W4_cache W4_signal = some tr ∧
      tr.exit_price = 106 ∧ tr.exit_date = 6 ∧ tr.entry_price = 1 ∧
      tr.holding_period_days = 5 :=
  (C4_exit_resolution W4_cache W4_signal W4_bars 5 TradeType.long ⟨0, ⟨1, 1, 101⟩, 1⟩
    rfl rfl signalTradeType_one_long rfl).1 ⟨6, 6, 106⟩ rfl

theorem C10_silent_drop_witness :
    processSignal W4_cache W10_signal = none ∧ processSignal [] W4_signal = none :=
  ⟨C10_silent_drop W4_cache W10_signal (Or.inr rfl),
   C10_silent_drop [] W4_signal (Or.inl rfl)⟩

theorem ai_attempts_calls_le (outcomes : Nat → ApiOutcome) :
    ∀ fuel calls slept, (ai_attempts outcomes fuel calls slept).calls ≤ calls + fuel := by
  intro fuel
  induction fuel with
  | zero => intro calls slept; simp [ai_attempts]
  | succ n ih =>
    intro calls slept
    rw [ai_attempts]
    split
    · split
      · show calls + 1 ≤ calls + (n + 1); omega
      · show calls + 1 ≤ calls + (n + 1); omega
    · exact le_trans (ih (calls + 1) (slept + RETRY_SLEEP_TIME)) (by omega)
    · split
      · exact le_trans (ih (calls + 1) (slept + RETRY_SLEEP_TIME)) (by omega)
      · show calls + 1 ≤ calls + (n + 1); omega

theorem ai_attempts_all_transient (outcomes : Nat → ApiOutcome)
    (h : ∀ k, isTransient (outcomes k) = true) :
    ∀ fuel calls slept, ai_attempts outcomes fuel calls slept =
      ⟨ScoreResult.failed "Max retries exceeded" none, calls + fuel,
        slept + fuel * RETRY_SLEEP_TIME⟩ := by
  intro fuel
  induction fuel with
  | zero => intro calls slept; simp [ai_attempts]
  | succ n ih =>
    intro calls slept
    rw [ai_attempts]
    have hk := h calls
    split
    · next raw parsed heq => rw [heq] at hk; simp [isTransient] at hk
    · rw [ih (calls + 1) (slept + RETRY_SLEEP_TIME)]
      simp only [CallStats.mk.injEq, RETRY_SLEEP_TIME]
      exact ⟨trivial, by omega, by omega⟩
    · next msg heq =>
      rw [heq] at hk
      simp only [isTransient] at hk
      rw [if_pos hk, ih (calls + 1) (slept + RETRY_SLEEP_TIME)]
      simp only [CallStats.mk.injEq, RETRY_SLEEP_TIME]
      exact ⟨trivial, by omega, by omega⟩

theorem LLMService_attempts_calls_le (outcomes : Nat → TongyiOutcome) :
    ∀ fuel calls slept,
      (LLMService_attempts outcomes fuel calls slept).calls ≤ calls + fuel := by
  intro fuel
  induction fuel with
  | zero => intro calls slept; simp [LLMService_attempts]
  | succ n ih =>
    intro calls slept
    rw [LLMService_attempts]
    split
    · exact le_trans (ih (calls + 1) (slept + RETRY_SLEEP_TIME)) (by omega)
    · split
      · show calls + 1 ≤ calls + (n + 1); omega
      · split
        · split
          · show calls + 1 ≤ calls + (n + 1); omega
          · show calls + 1 ≤ calls + (n + 1); omega
        · show calls + 1 ≤ calls + (n + 1); omega

theorem LLMService_attempts_all_exn (outcomes : Nat → TongyiOutcome)
    (h : ∀ k, ∃ msg, outcomes k = TongyiOutcome.exn msg) :
    ∀ fuel calls slept, LLMService_attempts outcomes fuel calls slept =
      ⟨ScoreResult.failed "Max retries exceeded" none, calls + fuel,
        slept + fuel * RETRY_SLEEP_TIME⟩ := by
  intro fuel
  induction fuel with
  | zero => intro calls slept; simp [LLMService_attempts]
  | succ n ih =>
    intro calls slept
    rw [LLMService_attempts]
    obtain ⟨msg, hmsg⟩ := h calls
    split
    · rw [ih (calls + 1) (slept + RETRY_SLEEP_TIME)]
      simp only [CallStats.mk.injEq, RETRY_SLEEP_TIME]
      exact ⟨trivial, by omega, by omega⟩
    · next raw ps pp heq => rw [hmsg] at heq; cases heq

/-- C2 (amended): both scorers make at most MAX_RETRIES collaborator calls
and return failed "Max retries exceeded" (after MAX_RETRIES sleeps of
RETRY_SLEEP_TIME seconds) when every attempt fails retryably. In ai_scorer's
`get_llm_score_with_retry` a transient outcome (rate limit, or an exception
mentioning a timeout) sleeps RETRY_SLEEP_TIME and retries while any other
exception fails immediately without consuming the remaining attempts; in
`LLMService.get_score_with_retry` every `llm.invoke` exception — transient or
not — is slept on and retried. -/
theorem C2_retry_policy (task : TaskItem) (outcomes : Nat → ApiOutcome)
    (outcomesT : Nat → TongyiOutcome) :
    ((get_llm_score_with_retry task outcomes).calls ≤ MAX_RETRIES)
    ∧ (∀ fuel calls slept, isTransient (outcomes calls) = true →
        ai_attempts outcomes (fuel + 1) calls slept
          = ai_attempts outcomes fuel (calls + 1) (slept + RETRY_SLEEP_TIME))
    ∧ (∀ fuel calls slept msg, outcomes calls = ApiOutcome.exn msg →
        isTimeoutMsg msg = false →
        ai_attempts outcomes (fuel + 1) calls slept
          = ⟨ScoreResult.failed msg none, calls + 1, slept⟩)
    ∧ ((∀ k, isTransient (outcomes k) = true) →
        isBlank (task.title ++ " " ++ task.content) = false →
        get_llm_score_with_retry task outcomes
          = ⟨ScoreResult.failed "Max retries exceeded" none, MAX_RETRIES,
              MAX_RETRIES * RETRY_SLEEP_TIME⟩)
    ∧ ((LLMService_get_score_with_retry task outcomesT).calls ≤ MAX_RETRIES)
    ∧ (∀ fuel calls slept msg, outcomesT calls = TongyiOutcome.exn msg →
        LLMService_attempts outcomesT (fuel + 1) calls slept
          = LLMService_attempts outcomesT fuel (calls + 1) (slept + RETRY_SLEEP_TIME))
    ∧ ((∀ k, ∃ msg, outcomesT k = TongyiOutcome.exn msg) →
        isBlank task.content = false →
        LLMService_get_score_with_retry task outcomesT
          = ⟨ScoreResult.failed "Max retries exceeded" none, MAX_RETRIES,
              MAX_RETRIES * RETRY_SLEEP_TIME⟩) := by
  refine ⟨?_, ?_, ?_, ?_, ?_, ?_, ?_⟩
  · rw [get_llm_score_with_retry]
    split
    · show 0 ≤ MAX_RETRIES; omega
    · simpa using ai_attempts_calls_le outcomes MAX_RETRIES 0 0
  · intro fuel calls slept ht
    rw [ai_attempts]
    split
    · next raw parsed heq => rw [heq] at ht; simp [isTransient] at ht
    · rfl
    · next msg heq =>
      rw [heq] at ht
      simp only [isTransient] at ht
      rw [if_pos ht]
  · intro fuel calls slept msg ho htm
    rw [ai_attempts]
    split
    · next raw parsed heq => rw [ho] at heq; cases heq
    · next heq => rw [ho] at heq; cases heq
    · next msg' heq =>
      rw [ho] at heq
      injection heq with h'
      subst h'
      rw [if_neg (by simp [htm])]
  · intro hT hb
    rw [get_llm_score_with_retry]
    rw [hb]
    rw [if_neg Bool.false_ne_true]
    rw [ai_attempts_all_transient outcomes hT MAX_RETRIES 0 0]
    simp
  · rw [LLMService_get_score_with_retry]
    split
    · show 0 ≤ MAX_RETRIES; omega
    · simpa using LLMService_attempts_calls_le outcomesT MAX_RETRIES 0 0
  · intro fuel calls slept msg ho
    rw [LLMService_attempts]
    split
    · next msg' heq => rfl
    · next raw ps pp heq => rw [ho] at heq; cases heq
  · intro hT hb
    rw [LLMService_get_score_with_retry, hb]
    rw [if_neg Bool.false_ne_true]
    rw [LLMService_attempts_all_exn outcomesT hT MAX_RETRIES 0 0]
    simp

/-- C2 counterexample: in `LLMService.get_score_with_retry` a non-transient
error (a collaborator exception whose message does not mention a timeout,
here "invalid api key") does not make the task fail immediately: all
MAX_RETRIES = 3 attempts are consumed, 45 seconds are slept, and the result
is failed "Max retries exceeded" rather than an immediate failure after one
call. -/
theorem C2_retry_policy_counterexample :
    LLMService_get_score_with_retry C2_task C2_fatalOutcomes
      = ⟨ScoreResult.failed "Max retries exceeded" none, 3, 45⟩
    ∧ isTimeoutMsg "invalid api key" = false
    ∧ (LLMService_get_score_with_retry C2_task C2_fatalOutcomes).calls ≠ 1 := by
  refine ⟨rfl, by decide, by decide⟩

theorem C2_retry_policy_witness :
    get_llm_score_with_retry C2_task (fun _ => ApiOutcome.rateLimit)
      = ⟨ScoreResult.failed "Max retries exceeded" none, MAX_RETRIES,
          MAX_RETRIES * RETRY_SLEEP_TIME⟩
    ∧ LLMService_get_score_with_retry C2_task C2_fatalOutcomes
      = ⟨ScoreResult.failed "Max retries exceeded" none, MAX_RETRIES,
          MAX_RETRIES * RETRY_SLEEP_TIME⟩ :=
  ⟨(C2_retry_policy C2_task (fun _ => ApiOutcome.rateLimit) C2_fatalOutcomes).2.2.2.1
      (fun _ => rfl) (by decide),
   (C2_retry_policy C2_task (fun _ => ApiOutcome.rateLimit) C2_fatalOutcomes).2.2.2.2.2.2
      (fun k => ⟨"invalid api key", rfl⟩) (by decide)⟩

/-- C6: a task whose concatenated title-and-content text is empty or
whitespace-only is returned as skipped "Empty content" by both scorer
variants, with zero collaborator calls and zero sleeping. -/
theorem C6_empty_content_skip (task : TaskItem) (outcomes : Nat → ApiOutcome)
    (outcomesT : Nat → TongyiOutcome)
    (h : isBlank (task.title ++ " " ++ task.content) = true) :
    get_llm_score_with_retry task outcomes = ⟨ScoreResult.skipped "Empty content", 0, 0⟩
    ∧ LLMService_get_score_with_retry task outcomesT
        = ⟨ScoreResult.skipped "Empty content", 0, 0⟩ := by
  have hc : isBlank task.content = true := by
    have hdata : (task.title ++ " " ++ task.content).data
        = (task.title ++ " ").data ++ task.content.data := rfl
    rw [isBlank] at h ⊢
    rw [hdata, List.all_append] at h
    exact (Bool.and_eq_true_iff.mp h).2
  constructor
  · rw [get_llm_score_with_retry, h, if_pos rfl]
  · rw [LLMService_get_score_with_retry, hc, if_pos rfl]

theorem C6_empty_content_skip_witness :
    get_llm_score_with_retry ⟨"", " ", "000001"⟩ (fun _ => ApiOutcome.rateLimit)
      = ⟨ScoreResult.skipped "Empty content", 0, 0⟩
    ∧ LLMService_get_score_with_retry ⟨"", " ", "000001"⟩ C2_fatalOutcomes
      = ⟨ScoreResult.skipped "Empty content", 0, 0⟩ :=
  C6_empty_content_skip ⟨"", " ", "000001"⟩ (fun _ => ApiOutcome.rateLimit)
    C2_fatalOutcomes (by decide)

/-- C1: evaluation of `LLMService.get_score_with_retry` at a reply that
parses as the JSON object with the single out-of-range entry
Fundamental_Positive = 5.0: the result is tagged success and carries that
object unvalidated, although it has neither the five factor fields nor
values inside [0.0, 1.0] — contradicting the spec and the (unused)
`models.StockScore` bounds; the primary parse path returns success with no
field or range check. -/
theorem C1_invalid_success_accepted :
    (LLMService_get_score_with_retry C1_task C1_outcomes).result
      = ScoreResult.success C1_badJson
    ∧ isValidFactorData C1_badJson = false
    ∧ (LLMService_get_score_with_retry C1_task C1_outcomes).calls = 1 :=
  ⟨rfl, rfl, rfl⟩

/-- C5 (amended): a file whose stock code already appears in the results
store's stock_code column is never among the files a run processes; and a
second run over the same targets processes zero additional files provided
every target code appears in the store the first run leaves behind (which
holds exactly when each processed file appended at least one successful row
bearing its code). A file whose scoring yields no successful rows adds
nothing to the store and is reprocessed by the next run. -/
theorem C5_resumption_idempotence (fs : String → List ScoredRow)
    (store : List ScoredRow) (targets : List String)
    (hall : ∀ f ∈ targets,
      f ∈ (runPipeline fs store targets).1.map (fun r => r.stock_code)) :
    (runPipeline fs (runPipeline fs store targets).1 targets).2 = 0
    ∧ ∀ c ∈ load_processed_codes store,
        c ∉ files_to_process (load_processed_codes store) targets := by
  constructor
  · show (files_to_process
      (load_processed_codes (runPipeline fs store targets).1) targets).length = 0
    have hnil : files_to_process
        (load_processed_codes (runPipeline fs store targets).1) targets = [] := by
      rw [files_to_process, List.filter_eq_nil_iff]
      intro a ha
      simp only [decide_eq_true_eq, Decidable.not_not]
      rw [load_processed_codes, List.mem_dedup]
      exact hall a ha
    rw [hnil]
    rfl
  · intro c hc hmem
    rw [files_to_process, List.mem_filter] at hmem
    have h2 := hmem.2
    simp only [decide_eq_true_eq] at h2
    exact h2 hc

/-- C5 counterexample: with one target file "000001", an empty results store
and a scoring oracle under which no task succeeds, the first run processes
the file but appends nothing, and a second run over the unchanged store
processes that file again — one additional file, not zero. -/
theorem C5_resumption_counterexample :
    (runPipeline W5_noSuccess [] ["000001"]).2 = 1
    ∧ (runPipeline W5_noSuccess [] ["000001"]).1 = []
    ∧ (runPipeline W5_noSuccess (runPipeline W5_noSuccess [] ["000001"]).1 ["000001"]).2
        = 1
    ∧ (runPipeline W5_noSuccess (runPipeline W5_noSuccess [] ["000001"]).1 ["000001"]).2
        ≠ 0 :=
  ⟨rfl, rfl, rfl, by decide⟩

theorem C5_resumption_witness :
    (runPipeline W5_fs (runPipeline W5_fs [] ["000001"]).1 ["000001"]).2 = 0 :=
  (C5_resumption_idempotence W5_fs [] ["000001"] (by decide)).1

/-- C8 (amended): when at least one failure accumulated, the failure log file
is rewritten wholesale with exactly the in-memory failure collection; but a
run with zero failures returns before touching the file, leaving whatever a
previous run wrote in place. -/
theorem C8_failure_log_flush (failed_tasks : List FailedTask)
    (prev : Option (List FailedTask)) (h : failed_tasks ≠ []) :
    save_failed_tasks failed_tasks prev = some failed_tasks
    ∧ ∀ prev' : Option (List FailedTask), save_failed_tasks [] prev' = prev' := by
  constructor
  · cases failed_tasks with
    | nil => exact absurd rfl h
    | cons a l => rfl
  · intro prev'
    rfl

/-- C8 counterexample: a run that produced zero failures leaves the failure
log holding the previous run's content rather than rewriting it to an empty
collection. -/
theorem C8_failure_log_counterexample :
    save_failed_tasks [] (some [W8_old]) = some [W8_old]
    ∧ save_failed_tasks [] (some [W8_old]) ≠ some ([] : List FailedTask) :=
  ⟨rfl, by decide⟩

theorem C8_failure_log_witness :
    save_failed_tasks [W8_new] none = some [W8_new] :=
  (C8_failure_log_flush [W8_new] none (by decide)).1

theorem load_data_arr (raw : String) (xs : List Json) (hraw : isBlank raw = false) :
    load_data_from_json_file (some raw) (some (Json.jarr xs))
      = match xs.get? 10 with
        | none => none
        | some elem =>
          match pyLen elem with
          | none => none
          | some _ => some elem := by
  rw [load_data_from_json_file, hraw, if_neg Bool.false_ne_true]
  rfl

/-- C9 (amended): for a file whose content parses as a JSON array,
`load_data_from_json_file` never returns the full record list: any value it
returns is the element at index 10, and that element is returned exactly when
it supports `len()` (the logging line computes `len(data)` inside the `try`
before returning, so a null, number or boolean at index 10 raises `TypeError`
and yields `None`); any array of ten or fewer elements raises IndexError,
which the catch-all handler converts to `None` — in every such case the whole
file is skipped as a load failure. -/
theorem C9_loads_index_ten (raw : String) (xs : List Json)
    (hraw : isBlank raw = false) :
    (∀ elem, xs.get? 10 = some elem →
      load_data_from_json_file (some raw) (some (Json.jarr xs))
        = if (pyLen elem).isSome then some elem else none)
    ∧ (xs.length ≤ 10 →
        load_data_from_json_file (some raw) (some (Json.jarr xs)) = none)
    ∧ (∀ elem, load_data_from_json_file (some raw) (some (Json.jarr xs)) = some elem →
        xs.get? 10 = some elem) := by
  refine ⟨?_, ?_, ?_⟩
  · intro elem he
    rw [load_data_arr raw xs hraw, he]
    cases hp : pyLen elem with
    | none => simp [hp]
    | some n => simp [hp]
  · intro hlen
    rw [load_data_arr raw xs hraw, List.get?_eq_none.mpr hlen]
  · intro elem hsome
    rw [load_data_arr raw xs hraw] at hsome
    cases hx : xs.get? 10 with
    | none => rw [hx] at hsome; simp at hsome
    | some e =>
      rw [hx] at hsome
      cases hp : pyLen e with
      | none => simp [hp] at hsome
      | some n =>
        simp [hp] at hsome
        subst hsome
        rfl

/-- C9 counterexample: an input array whose element at index 10 is `null`:
indexing succeeds, but the `len(data)` on the logging line raises `TypeError`
inside the `try`, so the function returns `None` and not the indexed element
— the claim's "returns the element at index 10" fails at this input. -/
theorem C9_loads_counterexample :
    W9_eleven.get? 10 = some Json.jnull
    ∧ load_data_from_json_file (some W9_raw) (some (Json.jarr W9_eleven)) = none
    ∧ load_data_from_json_file (some W9_raw) (some (Json.jarr W9_eleven))
        ≠ some Json.jnull :=
  ⟨rfl, rfl, fun h => Option.noConfusion h⟩

theorem C9_loads_index_ten_witness :
    load_data_from_json_file (some "[1]") (some (Json.jarr [Json.jnum 1])) = none
    ∧ load_data_from_json_file (some W9_goodRaw) (some (Json.jarr W9_good))
        = some (Json.jarr [Json.jstr "ok"]) :=
  ⟨(C9_loads_index_ten "[1]" [Json.jnum 1] (by decide)).2.1 (by decide),
   ((C9_loads_index_ten W9_goodRaw W9_good (by decide)).1 (Json.jarr [Json.jstr "ok"])
      rfl).trans (if_pos rfl)⟩
